import Mathlib

/-!
Shallow embedding of the `eodhd_py` library (an async Python client for the
EODHD REST API) for checking its natural-language specification.

The embedding follows the Python sources:
  * `src/eodhd_py/utils.py`   — validators
  * `src/eodhd_py/base.py`    — config / session lifecycle, request executor
  * `src/eodhd_py/eod_historical.py`      — EOD endpoint
  * `src/eodhd_py/intraday_historical.py` — intraday endpoint

Python `ValueError`s raised by the validators are modelled as
`Except ApiError` results; a network request is modelled as the value the
endpoint method hands to the request executor, so an `Except.error` result
means no HTTP request is ever issued.
-/

namespace EodhdPy

/-- Errors raised by the argument validators (Python `ValueError`; the spec
calls this class InvalidArgument). -/
inductive ApiError where
  | invalidArgument (msg : String)
deriving Repr, DecidableEq

/-! ## Validators (`utils.py`) -/

/-- Character class of the source regex `^[A-z0-9-$\.+]{1,48}$`
(from `validate_normalize_symbol`).  Note that the range `A-z` covers the
ASCII codes 65–122, which besides the letters also contains the six
characters with codes 91–96 (left bracket, backslash, right bracket,
caret, underscore, backquote).  The `-` between `9` and `$` is a literal
hyphen, and `$`, `.`, `+` are literals inside the class. -/
def symbolCharOk (c : Char) : Bool :=
  decide (65 ≤ c.toNat ∧ c.toNat ≤ 122) || decide (48 ≤ c.toNat ∧ c.toNat ≤ 57) ||
    c == '-' || c == '$' || c == '.' || c == '+'

/-- Body of the symbol regex: between 1 and 48 characters, all in the
class `[A-z0-9-$\.+]`. -/
def symbolBodyOk (cs : List Char) : Bool :=
  decide (1 ≤ cs.length ∧ cs.length ≤ 48) && cs.all symbolCharOk

/-- Python `re.match` on the anchored pattern `^[A-z0-9-$\.+]{1,48}$`.
In Python's `re`, `$` matches at the end of the string or just before a
single trailing newline, so a string whose body matches followed by one
final `'\n'` also matches. -/
def symbolRegexMatch (s : String) : Bool :=
  symbolBodyOk s.data ||
    (match s.data.getLast? with
     | some c => c == '\n' && symbolBodyOk s.data.dropLast
     | none => false)

/-- Python `str.replace(".", "-", 1)`: replace only the first occurrence
of `'.'` by `'-'`. -/
def replaceFirstDot : List Char → List Char
  | [] => []
  | c :: cs => if c = '.' then '-' :: cs else c :: replaceFirstDot cs

/-- `utils.validate_normalize_symbol`: validate the symbol against the
regex, and when it contains exactly two dots replace the first dot with a
hyphen. -/
def validate_normalize_symbol (symbol : String) : Except ApiError String :=
  let isMarket : Bool := symbol.data.count '.' == 2
  if symbolRegexMatch symbol then
    if isMarket then Except.ok (String.mk (replaceFirstDot symbol.data))
    else Except.ok symbol
  else Except.error (ApiError.invalidArgument s!"Symbol is invalid: {symbol}")

/-- Message of `utils.validate_order` on failure. -/
def orderErrMsg : String := "Order must be 'a' (ascending) or 'd' (descending)"

/-- `utils.validate_order`: the order must be exactly `"a"` or `"d"`. -/
def validate_order (order : String) : Except ApiError Bool :=
  if order = "a" ∨ order = "d" then Except.ok true
  else Except.error (ApiError.invalidArgument orderErrMsg)

/-- Message of `utils.validate_period` on failure. -/
def periodErrMsg : String := "Period must be 'd' (daily), 'w' (weekly), or 'm' (monthly)"

/-- `utils.validate_period`: the period must be `"d"`, `"w"` or `"m"`. -/
def validate_period (period : String) : Except ApiError Bool :=
  if period = "d" ∨ period = "w" ∨ period = "m" then Except.ok true
  else Except.error (ApiError.invalidArgument periodErrMsg)

/-- Error message of interval validation for EOD-style requests; it names
the permitted literal set d, w, m (message format taken from the
repository's own tests). -/
def eodIntervalErrMsg : String := "Interval must be 'd' (daily), 'w' (weekly), or 'm' (monthly)"

/-- Error message of interval validation for intraday requests; it names
the permitted literal set 1m, 5m, 1h (message format taken from the
repository's own tests). -/
def intradayIntervalErrMsg : String := "Interval must be '1m', '5m', or '1h'"

/-- Modelled from the spec: `validate_interval(value, kind)` is imported
from `utils` by `base.py`, `eod_historical.py` and `intraday_historical.py`
and exercised by the repository's tests, but its definition is absent from
the sources.  The spec says: for EOD-style requests the allowed set is
d, w, m; for intraday requests the allowed set is 1m, 5m, 1h; the error
message names the permitted literal set for the given kind. -/
def validate_interval (value : String) (dataType : String) : Except ApiError Bool :=
  if dataType = "eod" then
    if value = "d" ∨ value = "w" ∨ value = "m" then Except.ok true
    else Except.error (ApiError.invalidArgument eodIntervalErrMsg)
  else
    if value = "1m" ∨ value = "5m" ∨ value = "1h" then Except.ok true
    else Except.error (ApiError.invalidArgument intradayIntervalErrMsg)

/-! ## Request parameters (Python `dict[str, str]`) -/

/-- A Python `dict[str, str]` modelled as an insertion-ordered association
list with unique keys. -/
abbrev Params := List (String × String)

/-- Key membership test (`k in d`). -/
def hasKey (d : Params) (k : String) : Bool := d.any (fun p => p.1 == k)

/-- Python `d[k] = v`: update the value in place when the key is present,
otherwise append the new entry at the end (insertion order). -/
def dictSet (d : Params) (k v : String) : Params :=
  if hasKey d k then d.map (fun p => if p.1 == k then (k, v) else p)
  else d ++ [(k, v)]

/-! ## Dates (`datetime.strftime("%Y-%m-%d")`) -/

/-- The date part of a Python `datetime` value. -/
structure Date where
  year : Nat
  month : Nat
  day : Nat
deriving Repr, DecidableEq

/-- Zero-pad a number to a minimum width, as the strftime directives do. -/
def zeroPad (w : Nat) (n : Nat) : String :=
  let s := toString n
  if s.length < w then String.mk (List.replicate (w - s.length) '0') ++ s else s

/-- Python `datetime.strftime("%Y-%m-%d")` (year padded to 4 digits, month
and day to 2). -/
def Date.strftimeYmd (d : Date) : String :=
  zeroPad 4 d.year ++ "-" ++ zeroPad 2 d.month ++ "-" ++ zeroPad 2 d.day

/-! ## Request executor (`base.py`, `BaseEodhdApi._make_request`) -/

/-- The outgoing HTTP GET request: the composed URL and the final query
parameters. -/
structure OutgoingRequest where
  url : String
  params : Params
deriving Repr, DecidableEq

/-- `BaseEodhdApi.BASE_URL`. -/
def BASE_URL : String := "https://eodhd.com/api"

/-- Python `endpoint.strip("/")`: remove every leading and trailing `'/'`. -/
def stripSlashes (s : String) : String :=
  String.mk (((s.data.dropWhile (fun c => c == '/')).reverse.dropWhile
    (fun c => c == '/')).reverse)

/-- `BaseEodhdApi._make_request`, up to the point where the GET is issued:
copy the caller's parameters (an absent mapping becomes the empty dict),
set `api_token` to the configured key and `fmt` to `"json"`, and compose
the URL from `BASE_URL` and the stripped endpoint path. -/
def make_request (apiKey : String) (endpoint : String) (params : Option Params) :
    OutgoingRequest :=
  let requestParams := match params with | some p => p | none => []
  let requestParams := dictSet requestParams "api_token" apiKey
  let requestParams := dictSet requestParams "fmt" "json"
  { url := BASE_URL ++ "/" ++ stripSlashes endpoint, params := requestParams }

/-! ## Endpoint methods (`eod_historical.py`, `intraday_historical.py`)

Each endpoint method is embedded as the computation of the value it hands
to `_make_request`; an `Except.error` result models a `ValueError` raised
before any network request is issued. -/

/-- The path/parameter pair an endpoint method passes to `_make_request`. -/
structure EndpointRequest where
  path : String
  params : Params
deriving Repr, DecidableEq

/-- The `if x_date is not None: params[key] = x_date.strftime("%Y-%m-%d")`
pattern shared by both endpoint methods. -/
def addDateParam (params : Params) (key : String) (d : Option Date) : Params :=
  match d with
  | some dt => dictSet params key dt.strftimeYmd
  | none => params

/-- `EodHistoricalApi.get_eod_data`: build the params dict (interval is
aliased to the key `period`), validate symbol, order and interval in that
order, add the optional dates, and call the executor on `eod/<symbol>`. -/
def get_eod_data (symbol interval order : String) (from_date to_date : Option Date) :
    Except ApiError EndpointRequest :=
  let period := interval
  let params : Params := [("period", period), ("order", order)]
  match validate_normalize_symbol symbol with
  | Except.error e => Except.error e
  | Except.ok nsym =>
    match validate_order order with
    | Except.error e => Except.error e
    | Except.ok _ =>
      match validate_interval period "eod" with
      | Except.error e => Except.error e
      | Except.ok _ =>
        let params := addDateParam params "from" from_date
        let params := addDateParam params "to" to_date
        Except.ok { path := "eod/" ++ nsym, params := params }

/-- `IntradayHistoricalApi.get_intraday_data`: build the params dict,
validate symbol then interval, add the optional dates, add `split-dt=1`
when the split flag is set, and call the executor on `intraday/<symbol>`. -/
def get_intraday_data (symbol interval : String) (from_date to_date : Option Date)
    (split_dt : Bool) : Except ApiError EndpointRequest :=
  let params : Params := [("interval", interval)]
  match validate_normalize_symbol symbol with
  | Except.error e => Except.error e
  | Except.ok nsym =>
    match validate_interval interval "intraday" with
    | Except.error e => Except.error e
    | Except.ok _ =>
      let params := addDateParam params "from" from_date
      let params := addDateParam params "to" to_date
      let params := if split_dt then dictSet params "split-dt" "1" else params
      Except.ok { path := "intraday/" ++ nsym, params := params }

/-! ## Session lifecycle (`base.py`, `EodhdApiConfig` / `close`)

Python object identity is modelled explicitly: `aiohttp.ClientSession`
objects are numbered by a counter, and the set of closed sessions is kept
alongside.  A `ClientEnv` is the mutable state shared by reference between
every endpoint client built from one `EodhdApiConfig`. -/

/-- The allocator and closed-set for session objects. -/
structure SessionWorld where
  nextId : Nat
  closedIds : List Nat
deriving Repr, DecidableEq

/-- `EodhdApiConfig`: the api key, the `close_session_on_aexit` flag, and
the private `_session` slot (`none` until the session property is first
accessed). -/
structure ConfigState where
  api_key : String
  close_session_on_aexit : Bool
  sessionId : Option Nat
deriving Repr, DecidableEq

/-- The state shared by every client built from one configuration. -/
structure ClientEnv where
  config : ConfigState
  world : SessionWorld
deriving Repr, DecidableEq

/-- What an endpoint client keeps from `self.session = self.config.session`:
a reference to the session object. -/
structure ClientRef where
  sessionId : Nat
deriving Repr, DecidableEq

/-- The `EodhdApiConfig.session` property: lazily instantiate the session
when first accessed, afterwards return the same object. -/
def configSession (env : ClientEnv) : Nat × ClientEnv :=
  match env.config.sessionId with
  | some s => (s, env)
  | none =>
    (env.world.nextId,
     { config := { env.config with sessionId := some env.world.nextId },
       world := { env.world with nextId := env.world.nextId + 1 } })

/-- `BaseEodhdApi.__init__` restricted to its session effect: grab
`self.config.session` (forcing lazy creation) and remember the reference. -/
def mk_base_api (env : ClientEnv) : ClientRef × ClientEnv :=
  let r := configSession env
  (⟨r.1⟩, r.2)

/-- `session.closed` for a given session object. -/
def sessionClosed (env : ClientEnv) (sid : Nat) : Bool :=
  env.world.closedIds.contains sid

/-- `BaseEodhdApi.close`: close the referenced session, but only when the
config owns it (`close_session_on_aexit`) and it is not already closed. -/
def close_client (cl : ClientRef) (env : ClientEnv) : ClientEnv :=
  if env.config.close_session_on_aexit && !(sessionClosed env cl.sessionId) then
    { env with world := { env.world with closedIds := cl.sessionId :: env.world.closedIds } }
  else env

/-- `EodhdApi.close` (the facade): close `config.session` under the same
two guards; accessing the property forces creation when it is absent. -/
def close_facade (env : ClientEnv) : ClientEnv :=
  let r := configSession env
  if r.2.config.close_session_on_aexit && !(sessionClosed r.2 r.1) then
    { r.2 with world := { r.2.world with closedIds := r.1 :: r.2.world.closedIds } }
  else r.2

/-! ## Response handling (`base.py`, tail of `_make_request`)

`response.raise_for_status()` is `aiohttp`'s: it raises
`ClientResponseError` (spec taxonomy: RequestFailed) exactly when the
response status is 400 or higher.  The parsed JSON value is represented
abstractly by a `String`; a body that is not valid JSON is `none` and
turns into a DecodeError. -/

/-- Errors of the response-handling tail of `_make_request`. -/
inductive FetchError where
  | requestFailed (status : Nat)
  | decodeError
deriving Repr, DecidableEq

/-- `aiohttp.ClientResponse.raise_for_status`: raise iff `status ≥ 400`. -/
def raise_for_status (status : Nat) : Except FetchError Unit :=
  if 400 ≤ status then Except.error (FetchError.requestFailed status) else Except.ok ()

/-- Tail of `_make_request`: `response.raise_for_status()` then
`return await response.json()`. -/
def handle_response (status : Nat) (parsedBody : Option String) :
    Except FetchError String :=
  match raise_for_status status with
  | Except.error e => Except.error e
  | Except.ok _ =>
    match parsedBody with
    | some j => Except.ok j
    | none => Except.error FetchError.decodeError

/-! ## Constructor (`base.py`, `BaseEodhdApi.__init__`) -/

/-- The `api_key` field pattern of `EodhdApiConfig`:
`[A-Za-z0-9.]` repeated 16 to 32 times, or the literal `demo`
(pydantic anchors the pattern at both ends). -/
def apiKeyPatternOk (k : String) : Bool :=
  k == "demo" ||
    (decide (16 ≤ k.length ∧ k.length ≤ 32) &&
      k.data.all (fun c => c.isAlpha || c.isDigit || c == '.'))

/-- Errors `BaseEodhdApi.__init__` can raise. -/
inductive InitError where
  /-- `ValueError("Either config or api_key must be provided")`. -/
  | missingConfigAndKey
  /-- pydantic `ValidationError` from the `api_key` pattern (a `ValueError`
  subclass in pydantic). -/
  | invalidApiKey
deriving Repr, DecidableEq

/-- The value part of `EodhdApiConfig` relevant to construction. -/
structure PureConfig where
  api_key : String
  close_session_on_aexit : Bool
deriving Repr, DecidableEq

/-- `EodhdApiConfig(api_key=k)`: pydantic validates the key against the
pattern; `close_session_on_aexit` defaults to true. -/
def mk_config (api_key : String) : Except InitError PureConfig :=
  if apiKeyPatternOk api_key then Except.ok ⟨api_key, true⟩
  else Except.error InitError.invalidApiKey

/-- `BaseEodhdApi.__init__`: `if not config and not api_key: raise ...`
then `self.config = config or EodhdApiConfig(api_key=api_key)` (a pydantic
model is always truthy, so `not config` is `config is None`). -/
def base_api_init (config : Option PureConfig) (api_key : String) :
    Except InitError PureConfig :=
  if config.isNone && api_key == "" then Except.error InitError.missingConfigAndKey
  else
    match config with
    | some c => Except.ok c
    | none => mk_config api_key

/-- Whether an `Except` computation succeeded (no exception escaped). -/
def exceptOk {ε α : Type} (x : Except ε α) : Bool :=
  match x with
  | Except.ok _ => true
  | Except.error _ => false

/-- Symbol character class as the claim (and the spec) words it:
`[A-Za-z0-9\-$.+]`.  Kept separate from `symbolCharOk`, which embeds the
source regex, so the two can be compared. -/
def claimSymbolCharOk (c : Char) : Bool :=
  c.isUpper || c.isLower || c.isDigit || c == '-' || c == '$' || c == '.' || c == '+'

end EodhdPy

namespace EodhdPy

/-- C1: EOD-style interval validation succeeds exactly on d, w, m (both for
the legacy `validate_period` and for `validate_interval` with the eod kind),
intraday interval validation succeeds exactly on 1m, 5m, 1h, and every other
string fails with InvalidArgument whose message names the permitted literal
set for that kind. -/
theorem c1_interval_validation (v : String) :
    (validate_period v = Except.ok true ↔ (v = "d" ∨ v = "w" ∨ v = "m")) ∧
    (validate_interval v "eod" = Except.ok true ↔ (v = "d" ∨ v = "w" ∨ v = "m")) ∧
    (validate_interval v "intraday" = Except.ok true ↔ (v = "1m" ∨ v = "5m" ∨ v = "1h")) ∧
    (¬(v = "d" ∨ v = "w" ∨ v = "m") →
      validate_period v = Except.error (ApiError.invalidArgument periodErrMsg) ∧
      validate_interval v "eod" = Except.error (ApiError.invalidArgument eodIntervalErrMsg)) ∧
    (¬(v = "1m" ∨ v = "5m" ∨ v = "1h") →
      validate_interval v "intraday"
        = Except.error (ApiError.invalidArgument intradayIntervalErrMsg)) := by
  refine ⟨?_, ?_, ?_, ?_, ?_⟩
  · simp only [validate_period]; split <;> simp_all
  · simp only [validate_interval, reduceIte]; split <;> simp_all
  · simp only [validate_interval]
    rw [if_neg (by decide)]
    split <;> simp_all
  · intro h
    refine ⟨?_, ?_⟩
    · simp [validate_period, h]
    · simp only [validate_interval, reduceIte]
      exact if_neg h
  · intro h
    simp only [validate_interval]
    rw [if_neg (by decide)]
    exact if_neg h

/-- C1 witness: at concrete inputs, the EOD kind rejects an invalid value
with the message naming d, w, m, and the intraday kind accepts 1m. -/
theorem c1_witness :
    validate_interval "x" "eod" = Except.error (ApiError.invalidArgument eodIntervalErrMsg) ∧
    validate_interval "1m" "intraday" = Except.ok true :=
  ⟨((c1_interval_validation "x").2.2.2.1 (by decide)).2,
   ((c1_interval_validation "1m").2.2.1).mpr (by decide)⟩

/-- C2: the claim says the accepted characters are exactly
`[A-Za-z0-9\-$.+]`, and gives the underscore as an example of a character
that must be rejected.  The source regex, however, uses the class
`[A-z0-9-$\.+]`, whose range `A-z` (ASCII 65–122) also contains the
underscore (code 95) and its five neighbours, so the code accepts `"_"`:
`validate_normalize_symbol` returns it unchanged, while the character
class the claim (and the spec) prescribe rejects it. -/
theorem c2_symbol_class_code_bug :
    validate_normalize_symbol "_" = Except.ok "_" ∧ claimSymbolCharOk '_' = false := by
  exact ⟨rfl, rfl⟩

/-- C3: for every accepted symbol, the returned value is the input with
only its first dot replaced by a hyphen when the input contains exactly
two dots, and the unchanged input otherwise. -/
theorem c3_dot_normalization (s r : String)
    (h : validate_normalize_symbol s = Except.ok r) :
    (s.data.count '.' = 2 → r = String.mk (replaceFirstDot s.data)) ∧
    (s.data.count '.' ≠ 2 → r = s) := by
  simp only [validate_normalize_symbol] at h
  by_cases hm : symbolRegexMatch s
  · rw [if_pos hm] at h
    by_cases hd : s.data.count '.' = 2
    · rw [if_pos (by simpa using hd)] at h
      refine ⟨fun _ => ?_, fun hne => absurd hd hne⟩
      exact (Except.ok.injEq _ _).mp h.symm
    · rw [if_neg (by simpa using hd)] at h
      refine ⟨fun hc => absurd hc hd, fun _ => ?_⟩
      exact (Except.ok.injEq _ _).mp h.symm
  · rw [if_neg hm] at h
    exact absurd h (by simp)

/-- C3 witness: the two example symbols of the claim, pushed through the
theorem — `BRK.B.US` (two dots) maps to its first-dot replacement
`BRK-B.US`, and `AAPL` (no dots) maps to itself. -/
theorem c3_witness :
    ("BRK-B.US" : String) = String.mk (replaceFirstDot "BRK.B.US".data) ∧
    ("AAPL" : String) = "AAPL" :=
  ⟨(c3_dot_normalization "BRK.B.US" "BRK-B.US" rfl).1 (by decide),
   (c3_dot_normalization "AAPL" "AAPL" rfl).2 (by decide)⟩

/-- Setting an absent key appends the new entry at the end of the dict. -/
theorem dictSet_append (d : Params) (k v : String) (h : hasKey d k = false) :
    dictSet d k v = d ++ [(k, v)] := by
  simp [dictSet, h]

/-- Key membership distributes over dict concatenation. -/
theorem hasKey_append (d e : Params) (k : String) :
    hasKey (d ++ e) k = (hasKey d k || hasKey e k) := by
  simp [hasKey, List.any_append]

/-- C4: the concrete EOD request of the claim produces exactly the
parameter mapping `period=m, order=d, from=2020-01-01, to=2020-12-31` on
path `eod/NVDA`; and in general, for every accepted argument combination,
the interval is sent under the key `period` and the dates, when present,
are appended under `from`/`to` in `YYYY-MM-DD` form and are absent
otherwise. -/
theorem c4_eod_request_mapping :
    (get_eod_data "NVDA" "m" "d" (some ⟨2020, 1, 1⟩) (some ⟨2020, 12, 31⟩) =
      Except.ok ⟨"eod/NVDA",
        [("period", "m"), ("order", "d"),
         ("from", "2020-01-01"), ("to", "2020-12-31")]⟩) ∧
    ∀ symbol interval order from_date to_date nsym,
      validate_normalize_symbol symbol = Except.ok nsym →
      (order = "a" ∨ order = "d") →
      (interval = "d" ∨ interval = "w" ∨ interval = "m") →
      get_eod_data symbol interval order from_date to_date =
        Except.ok ⟨"eod/" ++ nsym,
          ([("period", interval), ("order", order)] ++
            (match from_date with
             | some d => [("from", d.strftimeYmd)]
             | none => []) ++
            (match to_date with
             | some d => [("to", d.strftimeYmd)]
             | none => []))⟩ := by
  refine ⟨rfl, ?_⟩
  intro symbol interval order from_date to_date nsym hsym horder hinterval
  rcases horder with rfl | rfl <;>
    rcases hinterval with rfl | rfl | rfl <;>
      cases from_date <;> cases to_date <;>
        simp [get_eod_data, hsym, validate_order, validate_interval,
          addDateParam, dictSet, hasKey]

/-- C4 witness: the general mapping applied to a call with no dates —
both `from` and `to` are absent from the outgoing parameters. -/
theorem c4_witness :
    get_eod_data "AAPL" "d" "a" none none =
      Except.ok ⟨"eod/" ++ "AAPL", [("period", "d"), ("order", "a")]⟩ := by
  have h := c4_eod_request_mapping.2 "AAPL" "d" "a" none none "AAPL"
    rfl (Or.inl rfl) (Or.inl rfl)
  simpa using h

/-- C5: the concrete intraday request of the claim produces exactly
`interval=1m, to=2023-06-30` on path `intraday/BRK-B.US` (the normalized
symbol appears in the path); in general the parameters are the interval
under the key `interval`, the optional `from`/`to` dates, then `split-dt=1`
exactly when the split flag is set, so the marker key is present iff the
flag is. -/
theorem c5_intraday_request_mapping :
    (get_intraday_data "BRK.B.US" "1m" none (some ⟨2023, 6, 30⟩) false =
      Except.ok ⟨"intraday/BRK-B.US", [("interval", "1m"), ("to", "2023-06-30")]⟩) ∧
    ∀ symbol interval from_date to_date split_dt nsym,
      validate_normalize_symbol symbol = Except.ok nsym →
      (interval = "1m" ∨ interval = "5m" ∨ interval = "1h") →
      get_intraday_data symbol interval from_date to_date split_dt =
        Except.ok ⟨"intraday/" ++ nsym,
          ([("interval", interval)] ++
            (match from_date with
             | some d => [("from", d.strftimeYmd)]
             | none => []) ++
            (match to_date with
             | some d => [("to", d.strftimeYmd)]
             | none => []) ++
            (if split_dt then [("split-dt", "1")] else []))⟩ ∧
      (∀ req, get_intraday_data symbol interval from_date to_date split_dt =
          Except.ok req → hasKey req.params "split-dt" = split_dt) := by
  refine ⟨rfl, ?_⟩
  intro symbol interval from_date to_date split_dt nsym hsym hinterval
  have heq : get_intraday_data symbol interval from_date to_date split_dt =
      Except.ok ⟨"intraday/" ++ nsym,
        ([("interval", interval)] ++
          (match from_date with
           | some d => [("from", d.strftimeYmd)]
           | none => []) ++
          (match to_date with
           | some d => [("to", d.strftimeYmd)]
           | none => []) ++
          (if split_dt then [("split-dt", "1")] else []))⟩ := by
    rcases hinterval with rfl | rfl | rfl <;>
      cases from_date <;> cases to_date <;> cases split_dt <;>
        simp [get_intraday_data, hsym, validate_interval,
          addDateParam, dictSet, hasKey]
  refine ⟨heq, ?_⟩
  intro req hreq
  rw [heq] at hreq
  cases (Except.ok.injEq _ _).mp hreq
  cases from_date <;> cases to_date <;> cases split_dt <;>
    simp [hasKey]

/-- C5 witness: the marker parameter appears exactly when the split flag
is set, checked at a concrete call with the flag on. -/
theorem c5_witness :
    get_intraday_data "AAPL" "5m" none none true =
      Except.ok ⟨"intraday/" ++ "AAPL",
        [("interval", "5m"), ("split-dt", "1")]⟩ := by
  have h := (c5_intraday_request_mapping.2 "AAPL" "5m" none none true "AAPL"
    rfl (Or.inr (Or.inl rfl))).1
  simpa using h

/-- The head of `dropWhile p l`, when it exists, does not satisfy `p`. -/
theorem head_dropWhile_not {α : Type} (p : α → Bool) (l : List α) (c : α)
    (h : (l.dropWhile p).head? = some c) : p c = false := by
  induction l with
  | nil => simp [List.dropWhile] at h
  | cons a t ih =>
    rw [List.dropWhile_cons] at h
    by_cases hp : p a
    · rw [if_pos hp] at h
      exact ih h
    · rw [if_neg hp] at h
      simp at h
      subst h
      simpa using hp

/-- A nonempty `dropWhile` keeps the last element of the list. -/
theorem getLast_dropWhile {α : Type} (p : α → Bool) (l : List α)
    (h : l.dropWhile p ≠ []) : (l.dropWhile p).getLast? = l.getLast? := by
  induction l with
  | nil => simp [List.dropWhile] at h
  | cons a t ih =>
    rw [List.dropWhile_cons] at h ⊢
    by_cases hp : p a
    · rw [if_pos hp] at h ⊢
      have ht : t ≠ [] := by
        intro he
        rw [he] at h
        simp [List.dropWhile] at h
      rw [ih h]
      cases t with
      | nil => exact absurd rfl ht
      | cons b u => rw [List.getLast?_cons_cons]
    · rw [if_neg hp]

/-- C6: the executor composes the URL from the fixed base origin and the
path with its leading and trailing slashes stripped (the stripped path
neither starts nor ends with a slash), and the outgoing query parameters
are exactly the caller's mapping (empty when absent) with the configured
key injected under `api_token` and the fixed marker `fmt=json` — nothing
else is added. -/
theorem c6_executor_request (key ep : String) (m : Params) :
    ((make_request key ep (some m)).url = BASE_URL ++ "/" ++ stripSlashes ep) ∧
    ((make_request key ep none).params = [("api_token", key), ("fmt", "json")]) ∧
    (hasKey m "api_token" = false → hasKey m "fmt" = false →
      (make_request key ep (some m)).params = m ++ [("api_token", key), ("fmt", "json")]) ∧
    ((stripSlashes ep).data.head? ≠ some '/') ∧
    ((stripSlashes ep).data.getLast? ≠ some '/') := by
  refine ⟨rfl, rfl, ?_, ?_, ?_⟩
  · intro h1 h2
    rw [make_request]
    have e1 : dictSet m "api_token" key = m ++ [("api_token", key)] := dictSet_append m _ _ h1
    have h2' : hasKey (m ++ [("api_token", key)]) "fmt" = false := by
      rw [hasKey_append, h2]
      simp [hasKey]
    rw [e1, dictSet_append _ _ _ h2']
    simp
  · intro h
    have hlast : (((stripSlashes ep).data).reverse).getLast? = some '/' := by
      simp only [List.getLast?_reverse]
      exact h
    rw [stripSlashes] at hlast
    simp only [List.reverse_reverse] at hlast
    set q := fun c => c == '/' with hq
    set inner := ((ep.data.dropWhile q).reverse) with hi
    have hne : inner.dropWhile q ≠ [] := by
      intro he
      rw [he] at hlast
      simp at hlast
    rw [getLast_dropWhile q inner hne] at hlast
    rw [hi, List.getLast?_reverse] at hlast
    have := head_dropWhile_not q ep.data '/' hlast
    simp [hq] at this
  · intro h
    rw [stripSlashes] at h
    rw [show (String.mk (((ep.data.dropWhile (fun c => c == '/')).reverse.dropWhile
        (fun c => c == '/')).reverse)).data
      = ((ep.data.dropWhile (fun c => c == '/')).reverse.dropWhile
        (fun c => c == '/')).reverse from rfl] at h
    rw [List.getLast?_reverse] at h
    have := head_dropWhile_not (fun c => c == '/') _ '/' h
    simp at this

/-- C6 witness: a concrete call on a path with redundant slashes and a
parameter mapping free of the two injected keys. -/
theorem c6_witness :
    (make_request "demo" "/eod/AMD/" (some [("period", "d")])).params
      = [("period", "d")] ++ [("api_token", "demo"), ("fmt", "json")] :=
  (c6_executor_request "demo" "/eod/AMD/" [("period", "d")]).2.2.1 rfl rfl

/-- C7: an EOD call runs the validators in the order symbol, order,
interval; the first failing validator's error is the call's error, and
whenever any validator fails the call produces no request for the
executor (an `Except.error` result models the `ValueError` escaping
before the GET is issued). -/
theorem c7_eod_validation_order (symbol interval order : String)
    (fd td : Option Date) :
    (∀ e, validate_normalize_symbol symbol = Except.error e →
      get_eod_data symbol interval order fd td = Except.error e) ∧
    (∀ s e, validate_normalize_symbol symbol = Except.ok s →
      validate_order order = Except.error e →
      get_eod_data symbol interval order fd td = Except.error e) ∧
    (∀ s b e, validate_normalize_symbol symbol = Except.ok s →
      validate_order order = Except.ok b →
      validate_interval interval "eod" = Except.error e →
      get_eod_data symbol interval order fd td = Except.error e) ∧
    ((exceptOk (validate_normalize_symbol symbol) = false ∨
      exceptOk (validate_order order) = false ∨
      exceptOk (validate_interval interval "eod") = false) →
      exceptOk (get_eod_data symbol interval order fd td) = false) := by
  refine ⟨?_, ?_, ?_, ?_⟩
  · intro e h
    simp [get_eod_data, h]
  · intro s e hs h
    simp [get_eod_data, hs, h]
  · intro s b e hs hb h
    simp [get_eod_data, hs, hb, h]
  · intro h
    rcases hs : validate_normalize_symbol symbol with e | s
    · simp [get_eod_data, hs, exceptOk]
    · rcases ho : validate_order order with e | b
      · simp [get_eod_data, hs, ho, exceptOk]
      · rcases hi : validate_interval interval "eod" with e | t
        · simp [get_eod_data, hs, ho, hi, exceptOk]
        · rw [hs, ho, hi] at h
          simp [exceptOk] at h

/-- C7 witness: with an invalid symbol the call fails with the symbol
error before anything else, and with a valid symbol but invalid order and
interval the call fails with the order error — the earliest invalid
parameter wins, and in both cases no request reaches the executor. -/
theorem c7_witness :
    get_eod_data "bad symbol" "q" "z" none none
      = Except.error (ApiError.invalidArgument "Symbol is invalid: bad symbol") ∧
    get_eod_data "AAPL" "q" "z" none none
      = Except.error (ApiError.invalidArgument orderErrMsg) :=
  ⟨(c7_eod_validation_order "bad symbol" "q" "z" none none).1 _ rfl,
   (c7_eod_validation_order "AAPL" "q" "z" none none).2.1 "AAPL" _ rfl rfl⟩

/-- C8: clients built from one configuration share the identical session
object, which is created lazily (absent on the fresh configuration,
present after the first client grabs it); closing via the owning facade
closes that one session for every client; a second close is a no-op, and
close never touches an already-closed session. -/
theorem c8_shared_session (env0 : ClientEnv)
    (hfresh : env0.config.sessionId = none)
    (hflag : env0.config.close_session_on_aexit = true)
    (hclean : env0.world.closedIds = []) :
    ∀ c1 env1 c2 env2,
      mk_base_api env0 = (c1, env1) →
      mk_base_api env1 = (c2, env2) →
      c1.sessionId = c2.sessionId ∧
      env1.config.sessionId = some c1.sessionId ∧
      sessionClosed env2 c1.sessionId = false ∧
      sessionClosed (close_facade env2) c1.sessionId = true ∧
      sessionClosed (close_facade env2) c2.sessionId = true ∧
      close_facade (close_facade env2) = close_facade env2 ∧
      (∀ env cl, sessionClosed env cl.sessionId = true → close_client cl env = env) := by
  obtain ⟨⟨ak, fl, sid⟩, nid, cids⟩ := env0
  simp only at hfresh hflag hclean
  subst hfresh hflag hclean
  intro c1 env1 c2 env2 h1 h2
  rw [mk_base_api, configSession] at h1
  simp only at h1
  injection h1 with hc1 he1
  subst hc1
  subst he1
  rw [mk_base_api, configSession] at h2
  simp only at h2
  injection h2 with hc2 he2
  subst hc2
  subst he2
  refine ⟨rfl, rfl, by simp [sessionClosed], ?_, ?_, ?_, ?_⟩
  · simp [close_facade, configSession, sessionClosed]
  · simp [close_facade, configSession, sessionClosed]
  · simp [close_facade, configSession, sessionClosed]
  · intro env cl h
    simp [close_client, h]

/-- C8 witness: the whole lifecycle at a concrete fresh configuration —
two constructed clients hold session `0`, the facade close closes it, and
a second facade close changes nothing. -/
theorem c8_witness :
    sessionClosed (close_facade ⟨⟨"demo", true, some 0⟩, ⟨1, []⟩⟩) 0 = true ∧
    close_facade (close_facade ⟨⟨"demo", true, some 0⟩, ⟨1, []⟩⟩)
      = close_facade ⟨⟨"demo", true, some 0⟩, ⟨1, []⟩⟩ := by
  have h := c8_shared_session ⟨⟨"demo", true, none⟩, ⟨0, []⟩⟩ rfl rfl rfl
    ⟨0⟩ ⟨⟨"demo", true, some 0⟩, ⟨1, []⟩⟩ ⟨0⟩ ⟨⟨"demo", true, some 0⟩, ⟨1, []⟩⟩ rfl rfl
  exact ⟨h.2.2.2.1, h.2.2.2.2.2.1⟩

/-- C9 counterexample: the claim says every non-2xx response fails with
RequestFailed, but `raise_for_status` only raises for status 400 and
higher, so a 304 response — not a 2xx — has its parsed body returned to
the caller. -/
theorem c9_counterexample :
    (304 < 200 ∨ 300 ≤ 304) ∧ handle_response 304 (some "cached") = Except.ok "cached" :=
  ⟨Or.inr (by decide), rfl⟩

/-- C9 (amended): a response with status 400 or higher fails with
RequestFailed carrying that status and returns no value; a response with
status below 400 (which includes every 2xx success) has its parsed JSON
body returned as-is, or fails with DecodeError when the body is not
JSON. -/
theorem c9_http_failure (status : Nat) (body : Option String) :
    (400 ≤ status →
      handle_response status body = Except.error (FetchError.requestFailed status)) ∧
    (status < 400 →
      handle_response status body =
        (match body with
         | some j => Except.ok j
         | none => Except.error FetchError.decodeError)) := by
  constructor
  · intro h
    simp [handle_response, raise_for_status, h]
  · intro h
    simp [handle_response, raise_for_status, Nat.not_le.mpr h]

/-- C9 witness: a 404 fails with RequestFailed 404 even when the body
parses, and a 200 returns the parsed body. -/
theorem c9_witness :
    handle_response 404 (some "ignored") = Except.error (FetchError.requestFailed 404) ∧
    handle_response 200 (some "data") = Except.ok "data" :=
  ⟨(c9_http_failure 404 (some "ignored")).1 (by decide),
   by simpa using (c9_http_failure 200 (some "data")).2 (by decide)⟩

/-- C10 counterexample: the claim says that whenever only an api_key is
given a fresh configuration holding that key is constructed, but pydantic
validates the key against the pattern `[A-Za-z0-9.]` of length 16–32 (or
the literal `demo`), so the one-character key `"x"` raises a
ValidationError (itself a ValueError) instead of producing a
configuration — even though config is absent and the key is nonempty. -/
theorem c10_counterexample :
    base_api_init none "x" = Except.error InitError.invalidApiKey :=
  rfl

/-- C10 (amended): the constructor raises the dedicated ValueError
("Either config or api_key must be provided") exactly when config is
absent and api_key is empty; when a config is given it is stored (by
reference) and the api_key argument is ignored; when only an api_key
matching the configured pattern is given, a fresh configuration holding
that key is constructed, and a nonempty key failing the pattern raises
the pydantic validation error instead. -/
theorem c10_init (config : Option PureConfig) (api_key : String) :
    (base_api_init config api_key = Except.error InitError.missingConfigAndKey ↔
      (config = none ∧ api_key = "")) ∧
    (∀ c, config = some c → base_api_init config api_key = Except.ok c) ∧
    (config = none → apiKeyPatternOk api_key = true →
      base_api_init config api_key = Except.ok ⟨api_key, true⟩) ∧
    (config = none → api_key ≠ "" → apiKeyPatternOk api_key = false →
      base_api_init config api_key = Except.error InitError.invalidApiKey) := by
  refine ⟨?_, ?_, ?_, ?_⟩
  · constructor
    · intro h
      cases config with
      | some c =>
        by_cases hk : api_key = ""
        · simp [base_api_init, hk] at h
        · simp [base_api_init, hk] at h
      | none =>
        by_cases hk : api_key = ""
        · exact ⟨rfl, hk⟩
        · simp [base_api_init, beq_iff_eq, hk, mk_config] at h
          split at h <;> simp_all
    · rintro ⟨rfl, rfl⟩
      rfl
  · rintro c rfl
    by_cases hk : api_key = "" <;> simp [base_api_init, hk]
  · rintro rfl hk
    have hne : api_key ≠ "" := by
      intro he
      rw [he] at hk
      simp [apiKeyPatternOk] at hk
    simp [base_api_init, beq_iff_eq, hne, mk_config, hk]
  · rintro rfl hne hk
    simp [base_api_init, beq_iff_eq, hne, mk_config, hk]

/-- C10 witness: a configuration passed in is stored unchanged with the
api_key argument ignored, a valid lone key builds a fresh configuration
holding it, and the dedicated missing-arguments error appears exactly for
(no config, empty key). -/
theorem c10_witness :
    base_api_init (some ⟨"demo", false⟩) "ignoredKey" = Except.ok ⟨"demo", false⟩ ∧
    base_api_init none "demo" = Except.ok ⟨"demo", true⟩ ∧
    base_api_init none "" = Except.error InitError.missingConfigAndKey :=
  ⟨(c10_init (some ⟨"demo", false⟩) "ignoredKey").2.1 _ rfl,
   (c10_init none "demo").2.2.1 rfl rfl,
   (c10_init none "").1.mpr ⟨rfl, rfl⟩⟩

end EodhdPy
